import Mathlib

/-!
Shallow embedding of the POS application's domain logic: the pricing
engine (`src/utils.ts`), the store layer's order creation, status
derivation and realtime-merge handlers (`src/hooks/useStore` source,
`part_002`), and the DB row mapping helpers.  JavaScript numbers are
modelled as `Nat`: every quantity and price in the spec is a
non-negative integer (IDR amounts, item counts), and JS `!x` truthiness
on such numbers is `x = 0`.  Optional (possibly-`undefined`) fields are
modelled as `Option`; JS boolean truthiness of an optional boolean field
(`undefined` is falsy) is the `truthy` function below.
-/

/-- Category enumeration from `types.ts` (`part_001`). -/
inductive Category where
  | Coffee | Tea | Food | Dessert | Other
deriving DecidableEq, Repr

/-- BundleConfig from `types.ts`: quantity-break pricing rule attached to a
menu item. -/
structure BundleConfig where
  enabled : Bool
  buyQuantity : Nat
  bundlePrice : Nat
  showPromoLabel : Bool
deriving DecidableEq, Repr

/-- MenuItem from `types.ts`: `image` and `bundle` are optional. -/
structure MenuItem where
  id : String
  name : String
  basePrice : Nat
  category : Category
  image : Option String := none
  bundle : Option BundleConfig := none
deriving DecidableEq, Repr

/-- CartItem from `types.ts`: a MenuItem plus quantity, optional note and
optional prepared flag (TypeScript `extends` flattened). -/
structure CartItem where
  id : String
  name : String
  basePrice : Nat
  category : Category
  image : Option String := none
  bundle : Option BundleConfig := none
  quantity : Nat
  note : Option String := none
  isPrepared : Option Bool := none
deriving DecidableEq, Repr

/-- OrderStatus union from `types.ts`; `PickedUp` stands for the
two-word status string "Picked Up". -/
inductive OrderStatus where
  | Pending | Paid | Completed | Cancelled | Preparing | PickedUp
deriving DecidableEq, Repr

/-- The paymentStatus union type of Order in `types.ts`. -/
inductive PaymentStatus where
  | Paid | Unpaid
deriving DecidableEq, Repr

/-- Order from `types.ts`. -/
structure Order where
  id : String
  customerName : String
  items : List CartItem
  total : Nat
  status : OrderStatus
  paymentStatus : PaymentStatus
  createdAt : String
  note : Option String := none
deriving DecidableEq, Repr

/-- JS truthiness of an optional boolean field: `undefined` and `false`
are falsy, only `true` is truthy. -/
def truthy : Option Bool → Bool
  | some b => b
  | none => false

/-- calculateItemTotal from `src/utils.ts` lines 3-13.  The guard
`!item.bundle?.enabled || !item.bundle.buyQuantity || !item.bundle.bundlePrice`
is: bundle absent, or not enabled, or buyQuantity is 0 (falsy), or
bundlePrice is 0 (falsy).  `Math.floor(quantity / buyQuantity)` and
`quantity % buyQuantity` are Nat division and mod (buyQuantity is nonzero
past the guard). -/
def calculateItemTotal (item : MenuItem) (quantity : Nat) : Nat :=
  match item.bundle with
  | none => item.basePrice * quantity
  | some b =>
    if !b.enabled || b.buyQuantity = 0 || b.bundlePrice = 0 then
      item.basePrice * quantity
    else
      (quantity / b.buyQuantity) * b.bundlePrice + (quantity % b.buyQuantity) * item.basePrice

/-- The "Iced Latte" entry of DEFAULT_MENU (`part_002` lines 14-20):
basePrice 35000, enabled bundle buy 2 for 60000. -/
def icedLatte : MenuItem :=
  { id := "2", name := "Iced Latte", basePrice := 35000, category := Category.Coffee,
    bundle := some { enabled := true, buyQuantity := 2, bundlePrice := 60000, showPromoLabel := true } }

/-- The "Espresso" entry of DEFAULT_MENU (`part_002` lines 7-13): a
disabled bundle whose numeric fields are zero. -/
def espresso : MenuItem :=
  { id := "1", name := "Espresso", basePrice := 25000, category := Category.Coffee,
    bundle := some { enabled := false, buyQuantity := 0, bundlePrice := 0, showPromoLabel := false } }

/-- A menu item with an enabled bundle whose bundlePrice is zero: such a
bundle is representable (the data model only constrains buyQuantity when
enabled) and falls into the unit-price branch of calculateItemTotal. -/
def zeroPriceBundleItem : MenuItem :=
  { id := "z", name := "Degenerate Promo", basePrice := 35000, category := Category.Coffee,
    bundle := some { enabled := true, buyQuantity := 2, bundlePrice := 0, showPromoLabel := false } }

/-- The Omit shape `Omit<Order, 'id' | 'createdAt' | 'status'>` accepted by
createOrder (`part_002` line 170). -/
structure OrderInput where
  customerName : String
  items : List CartItem
  total : Nat
  paymentStatus : PaymentStatus
  note : Option String := none
deriving DecidableEq, Repr

/-- createOrder (`part_002` lines 170-195): the constructed order
`newOrderLocal`.  Every input line item's isPrepared is reset to false;
status is seeded from the payment status: "Paid" when paymentStatus is
"Paid", otherwise "Pending".  `generateId()` and
`new Date().toISOString()` are passed in as `genId` and `nowIso`.  The
remote branch inserts the same field values (customer_name, items, total,
status, payment_status, note); the local branch prepends `newOrderLocal`
itself. -/
def createOrder (orderData : OrderInput) (genId nowIso : String) : Order :=
  { id := genId
    customerName := orderData.customerName
    items := orderData.items.map (fun item => { item with isPrepared := some false })
    total := orderData.total
    status := if orderData.paymentStatus = PaymentStatus.Paid then OrderStatus.Paid else OrderStatus.Pending
    paymentStatus := orderData.paymentStatus
    createdAt := nowIso
    note := orderData.note }

/-- The lookup `orders.find(o => o.id === orderId)` (`part_002` line 207). -/
def findOrder (orders : List Order) (orderId : String) : Option Order :=
  orders.find? (fun o => o.id == orderId)

/-- The `updatedItems` computation of toggleOrderItemPrepared (`part_002`
lines 210-212): flip the prepared flag of every line item whose id matches
(`!item.isPrepared` on a possibly-undefined flag). -/
def toggledItems (items : List CartItem) (itemId : String) : List CartItem :=
  items.map (fun item =>
    if item.id == itemId then { item with isPrepared := some (! truthy item.isPrepared) } else item)

/-- The `preparedCount` computation (`part_002` line 215): number of line
items whose isPrepared flag is truthy. -/
def preparedCount (items : List CartItem) : Nat :=
  (items.filter (fun i => truthy i.isPrepared)).length

/-- The status derivation of toggleOrderItemPrepared (`part_002` lines
219-225), applied only when the current status is neither Cancelled nor
PickedUp: prepared count 0 gives Pending, count equal to the item total
gives Completed, anything else gives Preparing. -/
def deriveStatus (prepared totalItems : Nat) : OrderStatus :=
  if prepared = 0 then OrderStatus.Pending
  else if prepared = totalItems then OrderStatus.Completed
  else OrderStatus.Preparing

/-- toggleOrderItemPrepared (`part_002` lines 205-236) acting on the orders
collection: find the order; if absent do nothing; otherwise toggle the
matching item, derive the new status (kept unchanged when the current
status is Cancelled or PickedUp), and store the order with the updated
items array and status (the local branch's setOrders map; the remote
branch updates the same two fields by id). -/
def toggleOrderItemPrepared (orders : List Order) (orderId itemId : String) : List Order :=
  match findOrder orders orderId with
  | none => orders
  | some order =>
    orders.map (fun o =>
      if o.id == orderId then
        { o with
          items := toggledItems order.items itemId,
          status :=
            if order.status ≠ OrderStatus.Cancelled ∧ order.status ≠ OrderStatus.PickedUp then
              deriveStatus (preparedCount (toggledItems order.items itemId))
                           (toggledItems order.items itemId).length
            else order.status }
      else o)

/-- The value record provided by StoreProvider (`part_002` lines 239-250),
restricted to its data fields; the action closures are omitted as they are
not needed to state the useStore contract. -/
structure StoreContextType where
  menu : List MenuItem
  orders : List Order
  isRealtime : Bool
deriving DecidableEq, Repr

/-- useStore (`part_002` lines 256-262): reading the context outside a
StoreProvider yields `undefined` (modelled as `none`) and throws
immediately; otherwise the context value is returned.  The thrown error is
an `Except.error` carrying the exact message. -/
def useStore (context : Option StoreContextType) : Except String StoreContextType :=
  match context with
  | none => Except.error "useStore must be used within a StoreProvider"
  | some ctx => Except.ok ctx

/-- A `menu_items` row as read back from the backend (schema in
`part_000`): the row always has an id; `image` and `bundle_config` may be
null/absent. -/
structure DbMenuItem where
  id : String
  name : String
  base_price : Nat
  category : Category
  image : Option String := none
  bundle_config : Option BundleConfig := none
deriving DecidableEq, Repr

/-- An `orders` row as read back from the backend (schema in `part_000`). -/
structure DbOrder where
  id : String
  customer_name : String
  items : List CartItem
  total : Nat
  status : OrderStatus
  payment_status : PaymentStatus
  created_at : String
  note : Option String := none
deriving DecidableEq, Repr

/-- mapDbMenuItem (`part_002` lines 265-274): snake_case row to camelCase
domain shape, field by field. -/
def mapDbMenuItem (dbItem : DbMenuItem) : MenuItem :=
  { id := dbItem.id
    name := dbItem.name
    basePrice := dbItem.base_price
    category := dbItem.category
    image := dbItem.image
    bundle := dbItem.bundle_config }

/-- mapDbOrder (`part_002` lines 276-287). -/
def mapDbOrder (dbOrder : DbOrder) : Order :=
  { id := dbOrder.id
    customerName := dbOrder.customer_name
    items := dbOrder.items
    total := dbOrder.total
    status := dbOrder.status
    paymentStatus := dbOrder.payment_status
    createdAt := dbOrder.created_at
    note := dbOrder.note }

/-- The document inserted by addMenuItem (`part_002` lines 127-133): only
name, base_price, category and bundle_config are set — no image key — and
the backend assigns the row id (`assignedId`).  Reading `image` from the
stored row therefore yields null/undefined (`none`). -/
def insertedMenuDoc (item : MenuItem) (assignedId : String) : DbMenuItem :=
  { id := assignedId
    name := item.name
    base_price := item.basePrice
    category := item.category
    image := none
    bundle_config := item.bundle }

/-- A realtime push notification as delivered to the channel handlers
(`part_002` lines 74-96): the payload carries the new row image for
INSERT/UPDATE and the old row image for DELETE. -/
inductive RealtimeEvent (ρ : Type) where
  | INSERT (new : ρ)
  | UPDATE (new : ρ)
  | DELETE (old : ρ)
deriving DecidableEq, Repr

/-- The menu_changes handler (`part_002` lines 74-85): INSERT appends the
mapped row, UPDATE replaces the item with matching id by the mapped row,
DELETE drops the item with matching id. -/
def applyMenuEvent (menu : List MenuItem) (e : RealtimeEvent DbMenuItem) : List MenuItem :=
  match e with
  | RealtimeEvent.INSERT n => menu ++ [mapDbMenuItem n]
  | RealtimeEvent.UPDATE n => menu.map (fun item => if item.id == n.id then mapDbMenuItem n else item)
  | RealtimeEvent.DELETE old => menu.filter (fun item => item.id != old.id)

/-- The orders_changes handler (`part_002` lines 87-96): INSERT prepends
the mapped row, UPDATE replaces the order with matching id; the handler
has no DELETE branch, so a DELETE notification leaves the collection
unchanged. -/
def applyOrdersEvent (orders : List Order) (e : RealtimeEvent DbOrder) : List Order :=
  match e with
  | RealtimeEvent.INSERT n => mapDbOrder n :: orders
  | RealtimeEvent.UPDATE n => orders.map (fun o => if o.id == n.id then mapDbOrder n else o)
  | RealtimeEvent.DELETE _ => orders

/-- An order-creation input whose payment status is Paid: one Iced Latte
line paid at the counter. -/
def paidInput : OrderInput :=
  { customerName := "Guest"
    items := [{ id := "2", name := "Iced Latte", basePrice := 35000,
                category := Category.Coffee, quantity := 2 }]
    total := 60000
    paymentStatus := PaymentStatus.Paid }

/-- A menu item carrying an image reference, as an admin may create via the
item modal. -/
def imagedItem : MenuItem :=
  { id := "7", name := "Matcha", basePrice := 30000, category := Category.Tea,
    image := some "matcha.png" }

/-- A concrete in-memory order used to exercise the realtime handlers. -/
def wOrder : Order :=
  { id := "ord-1", customerName := "Guest", items := [], total := 0,
    status := OrderStatus.Pending, paymentStatus := PaymentStatus.Unpaid,
    createdAt := "2024-01-01T00:00:00Z" }

/-- The backend row image of `wOrder`, as carried by a push payload. -/
def wDbOrderRow : DbOrder :=
  { id := "ord-1", customer_name := "Guest", items := [], total := 0,
    status := OrderStatus.Pending, payment_status := PaymentStatus.Unpaid,
    created_at := "2024-01-01T00:00:00Z" }

/-- The backend row image of an updated Iced Latte, as carried by a push
payload. -/
def wDbMenuRow : DbMenuItem :=
  { id := "2", name := "Iced Latte", base_price := 36000, category := Category.Coffee }

/-- An unprepared Espresso line item. -/
def wItemA : CartItem :=
  { id := "i1", name := "Espresso", basePrice := 25000, category := Category.Coffee,
    quantity := 1, isPrepared := some false }

/-- An already prepared Green Tea line item. -/
def wItemB : CartItem :=
  { id := "i2", name := "Green Tea", basePrice := 30000, category := Category.Tea,
    quantity := 2, isPrepared := some true }

/-- A cancelled two-item order. -/
def wCancelled : Order :=
  { id := "o2", customerName := "Guest", items := [wItemA, wItemB], total := 85000,
    status := OrderStatus.Cancelled, paymentStatus := PaymentStatus.Unpaid, createdAt := "t0" }

/-- A two-item order in progress: one item prepared, one not, status
Preparing. -/
def wPreparing : Order :=
  { id := "o1", customerName := "Guest", items := [wItemA, wItemB], total := 85000,
    status := OrderStatus.Preparing, paymentStatus := PaymentStatus.Unpaid, createdAt := "t0" }

/-- A pending order with an empty items array. -/
def wEmpty : Order :=
  { id := "o3", customerName := "Guest", items := [], total := 0,
    status := OrderStatus.Pending, paymentStatus := PaymentStatus.Unpaid, createdAt := "t0" }

/-- Helper: `find?` by id commutes with a map that preserves the id
field. -/
theorem findOrder_map (orders : List Order) (f : Order → Order)
    (hf : ∀ o, (f o).id = o.id) (oid : String) :
    (orders.map f).find? (fun o => o.id == oid) =
      (orders.find? (fun o => o.id == oid)).map f := by
  rw [List.find?_map f orders]
  have hcomp : ((fun o => Order.id o == oid) ∘ f) = fun o => Order.id o == oid := by
    funext o
    simp [Function.comp, hf o]
  rw [hcomp]

/-- Helper: the mapping function applied by toggleOrderItemPrepared keeps
every order's id. -/
theorem toggle_map_id (order : Order) (orderId itemId : String) (o : Order) :
    (if o.id == orderId then
        { o with
          items := toggledItems order.items itemId,
          status :=
            if order.status ≠ OrderStatus.Cancelled ∧ order.status ≠ OrderStatus.PickedUp then
              deriveStatus (preparedCount (toggledItems order.items itemId))
                           (toggledItems order.items itemId).length
            else order.status }
      else o).id = o.id := by
  by_cases h : o.id == orderId <;> simp [h]

/-- Helper: when the order is found, toggleOrderItemPrepared rewrites that
order's items to the toggled array and its status to the derived one
(unchanged in the terminal states). -/
theorem toggle_found (orders : List Order) (orderId itemId : String) (order : Order)
    (h : findOrder orders orderId = some order) :
    findOrder (toggleOrderItemPrepared orders orderId itemId) orderId =
      some { order with
             items := toggledItems order.items itemId,
             status :=
               if order.status ≠ OrderStatus.Cancelled ∧ order.status ≠ OrderStatus.PickedUp then
                 deriveStatus (preparedCount (toggledItems order.items itemId))
                              (toggledItems order.items itemId).length
               else order.status } := by
  have h' : orders.find? (fun o => o.id == orderId) = some order := h
  have hid : order.id = orderId := by
    have h2 := List.find?_some h'
    simpa using h2
  unfold toggleOrderItemPrepared
  rw [h]
  unfold findOrder
  rw [findOrder_map orders _ (toggle_map_id order orderId itemId) orderId, h']
  simp [hid]

/-- Helper: a single toggleOrderItemPrepared call never changes the status
of an order that is Cancelled or PickedUp, wherever it sits in the
collection and whatever ids the call targets. -/
theorem toggle_step_terminal (orders : List Order) (orderId itemId oid : String) (o : Order)
    (h : findOrder orders oid = some o)
    (hterm : o.status = OrderStatus.Cancelled ∨ o.status = OrderStatus.PickedUp) :
    ∃ o', findOrder (toggleOrderItemPrepared orders orderId itemId) oid = some o' ∧
          o'.status = o.status := by
  unfold toggleOrderItemPrepared
  cases hfind : findOrder orders orderId with
  | none => exact ⟨o, h, rfl⟩
  | some order =>
    have h' : orders.find? (fun x => x.id == oid) = some o := h
    have hid : o.id = oid := by
      have h2 := List.find?_some h'
      simpa using h2
    unfold findOrder
    rw [findOrder_map orders _ (toggle_map_id order orderId itemId) oid, h']
    by_cases hcase : (o.id == orderId) = true
    · have hoid : oid = orderId := by
        have h3 : o.id = orderId := by simpa using hcase
        rw [← hid]
        exact h3
      have horder : order = o := by
        rw [← hoid] at hfind
        rw [h] at hfind
        exact (Option.some.inj hfind).symm
      subst horder
      refine ⟨_, rfl, ?_⟩
      have hcond : ¬(order.status ≠ OrderStatus.Cancelled ∧ order.status ≠ OrderStatus.PickedUp) := by
        rcases hterm with ht | ht <;> simp [ht]
      simp [hcase, hcond]
    · refine ⟨_, rfl, ?_⟩
      simp [hcase]

/-- C2: calculateItemTotal returns unitPrice * quantity when the bundle is
absent, disabled, or has zero buyQuantity or bundlePrice; otherwise it
returns floor(quantity / buyQuantity) * bundlePrice plus
(quantity mod buyQuantity) * unitPrice; in particular the Iced Latte
scenario gives 60000, 95000 and 155000 for quantities 2, 3 and 5. -/
theorem calculateItemTotal_spec :
    (∀ (item : MenuItem) (quantity : Nat),
      (item.bundle = none ∨
        ∃ b, item.bundle = some b ∧ (b.enabled = false ∨ b.buyQuantity = 0 ∨ b.bundlePrice = 0)) →
      calculateItemTotal item quantity = item.basePrice * quantity) ∧
    (∀ (item : MenuItem) (b : BundleConfig) (quantity : Nat),
      item.bundle = some b → b.enabled = true → b.buyQuantity ≠ 0 → b.bundlePrice ≠ 0 →
      calculateItemTotal item quantity =
        (quantity / b.buyQuantity) * b.bundlePrice + (quantity % b.buyQuantity) * item.basePrice) ∧
    calculateItemTotal icedLatte 2 = 60000 ∧
    calculateItemTotal icedLatte 3 = 95000 ∧
    calculateItemTotal icedLatte 5 = 155000 := by
  refine ⟨?_, ?_, by decide, by decide, by decide⟩
  · intro item quantity h
    rcases h with h | ⟨b, hb, hcond⟩
    · simp [calculateItemTotal, h]
    · rcases hcond with hc | hc | hc <;> simp [calculateItemTotal, hb, hc]
  · intro item b quantity hb hen hq hp
    simp [calculateItemTotal, hb, hen, hq, hp]

/-- C2 witness: the disabled-bundle branch at Espresso with quantity 4 and
the enabled-bundle branch at Iced Latte with quantity 5, both obtained by
instantiating calculateItemTotal_spec. -/
theorem calculateItemTotal_spec_witness :
    calculateItemTotal espresso 4 = espresso.basePrice * 4 ∧
    calculateItemTotal icedLatte 5 = (5 / 2) * 60000 + (5 % 2) * 35000 :=
  ⟨calculateItemTotal_spec.1 espresso 4 (Or.inr ⟨_, rfl, Or.inl rfl⟩),
   calculateItemTotal_spec.2.1 icedLatte
     { enabled := true, buyQuantity := 2, bundlePrice := 60000, showPromoLabel := true }
     5 rfl rfl (by decide) (by decide)⟩

/-- C7 counterexample: for the enabled bundle with buyQuantity 2 and
bundlePrice 0, at k = 1 the claim demands calculateItemTotal(35000, 1*2,
bundle) = 1*0 = 0, but the zero bundlePrice trips the falsy guard and the
result is 35000 * 2 = 70000. -/
theorem bundle_multiples_counterexample :
    zeroPriceBundleItem.bundle =
      some { enabled := true, buyQuantity := 2, bundlePrice := 0, showPromoLabel := false } ∧
    calculateItemTotal zeroPriceBundleItem (1 * 2) = 70000 ∧
    calculateItemTotal zeroPriceBundleItem (1 * 2) ≠ 1 * 0 := by
  refine ⟨rfl, by decide, by decide⟩

/-- C7 amended: for every enabled bundle with nonzero buyQuantity b and
nonzero bundlePrice p, buying any whole number k of bundles costs exactly
k * p: calculateItemTotal(unitPrice, k*b, bundle) = k*p. -/
theorem bundle_multiples (item : MenuItem) (b : BundleConfig) (k : Nat)
    (hb : item.bundle = some b) (hen : b.enabled = true)
    (hq : b.buyQuantity ≠ 0) (hp : b.bundlePrice ≠ 0) :
    calculateItemTotal item (k * b.buyQuantity) = k * b.bundlePrice := by
  simp [calculateItemTotal, hb, hen, hq, hp,
        Nat.mul_div_cancel _ (Nat.pos_of_ne_zero hq), Nat.mul_mod_left]

/-- C7 witness: five Iced Latte bundles (quantity 10) cost 5 * 60000. -/
theorem bundle_multiples_witness :
    calculateItemTotal icedLatte (5 * 2) = 5 * 60000 :=
  bundle_multiples icedLatte
    { enabled := true, buyQuantity := 2, bundlePrice := 60000, showPromoLabel := true }
    5 rfl rfl (by decide) (by decide)

/-- C1 counterexample: creating an order from an input with paymentStatus
Paid seeds the workflow status as Paid, not Pending — createOrder uses the
payment status as the seeded workflow status. -/
theorem createOrder_paid_counterexample :
    paidInput.paymentStatus = PaymentStatus.Paid ∧
    (createOrder paidInput "o1" "2024-01-01T00:00:00Z").status = OrderStatus.Paid ∧
    (createOrder paidInput "o1" "2024-01-01T00:00:00Z").status ≠ OrderStatus.Pending := by
  refine ⟨rfl, rfl, by decide⟩

/-- C1 amended: a newly created order's workflow status is Paid exactly
when the input's paymentStatus is Paid, and Pending exactly when it is
Unpaid: the payment status IS used as the seeded workflow status, so the
two axes are coupled at creation time. -/
theorem createOrder_status (orderData : OrderInput) (genId nowIso : String) :
    ((createOrder orderData genId nowIso).status = OrderStatus.Paid ↔
      orderData.paymentStatus = PaymentStatus.Paid) ∧
    ((createOrder orderData genId nowIso).status = OrderStatus.Pending ↔
      orderData.paymentStatus = PaymentStatus.Unpaid) := by
  cases h : orderData.paymentStatus <;> simp [createOrder, h]

/-- C6 counterexample: the insert document built by addMenuItem has no
image key, so serializing a menu item with an image and re-mapping the
stored row loses the image: the round trip is not field-for-field equal. -/
theorem menu_roundtrip_counterexample :
    imagedItem.image = some "matcha.png" ∧
    (mapDbMenuItem (insertedMenuDoc imagedItem "db-7")).image = none ∧
    (mapDbMenuItem (insertedMenuDoc imagedItem "db-7")).image ≠ imagedItem.image := by
  refine ⟨rfl, rfl, by decide⟩

/-- C6 amended: serializing a menu item to the backend document shape (as
addMenuItem does) and re-mapping the stored row back through mapDbMenuItem
preserves name, basePrice, category and bundle field-for-field, but the
image is not serialized and always comes back absent (so the image field
round-trips only for items without one). -/
theorem menu_roundtrip (item : MenuItem) (assignedId : String) :
    (mapDbMenuItem (insertedMenuDoc item assignedId)).name = item.name ∧
    (mapDbMenuItem (insertedMenuDoc item assignedId)).basePrice = item.basePrice ∧
    (mapDbMenuItem (insertedMenuDoc item assignedId)).category = item.category ∧
    (mapDbMenuItem (insertedMenuDoc item assignedId)).bundle = item.bundle ∧
    (mapDbMenuItem (insertedMenuDoc item assignedId)).image = none := by
  simp [mapDbMenuItem, insertedMenuDoc]

/-- C9: reading the store context outside a StoreProvider (context value
undefined) raises immediately with the StoreProvider misuse message and
returns no context value; inside a provider the context is returned. -/
theorem useStore_outside_provider :
    useStore none = Except.error "useStore must be used within a StoreProvider" ∧
    (∀ ctx : StoreContextType, useStore (some ctx) = Except.ok ctx) :=
  ⟨rfl, fun _ => rfl⟩

/-- C5 counterexample: a DELETE push notification on the orders collection
whose old row id matches the single in-memory order does not remove that
order — the orders subscription has no delete branch, so the collection is
returned unchanged and the matching row is still present. -/
theorem realtime_merge_counterexample :
    wDbOrderRow.id = wOrder.id ∧
    applyOrdersEvent [wOrder] (RealtimeEvent.DELETE wDbOrderRow) = [wOrder] ∧
    wOrder ∈ applyOrdersEvent [wOrder] (RealtimeEvent.DELETE wDbOrderRow) := by
  refine ⟨rfl, rfl, by decide⟩

/-- C5 amended: realtime push notifications on the menu collection are
merged by identity for all three event kinds (insert adds the mapped row,
update replaces the item with matching id, delete removes the item with
matching id), and on the orders collection for insert and update only; the
orders handler has no delete branch, so a delete notification leaves the
orders collection unchanged. -/
theorem realtime_merge :
    (∀ (menu : List MenuItem) (row : DbMenuItem),
      mapDbMenuItem row ∈ applyMenuEvent menu (RealtimeEvent.INSERT row) ∧
      ∀ m ∈ menu, m ∈ applyMenuEvent menu (RealtimeEvent.INSERT row)) ∧
    (∀ (menu : List MenuItem) (row : DbMenuItem), ∀ m ∈ menu,
      (m.id = row.id → mapDbMenuItem row ∈ applyMenuEvent menu (RealtimeEvent.UPDATE row)) ∧
      (m.id ≠ row.id → m ∈ applyMenuEvent menu (RealtimeEvent.UPDATE row))) ∧
    (∀ (menu : List MenuItem) (row : DbMenuItem),
      (∀ m ∈ applyMenuEvent menu (RealtimeEvent.DELETE row), m.id ≠ row.id) ∧
      (∀ m ∈ menu, m.id ≠ row.id → m ∈ applyMenuEvent menu (RealtimeEvent.DELETE row))) ∧
    (∀ (orders : List Order) (row : DbOrder),
      mapDbOrder row ∈ applyOrdersEvent orders (RealtimeEvent.INSERT row) ∧
      ∀ o ∈ orders, o ∈ applyOrdersEvent orders (RealtimeEvent.INSERT row)) ∧
    (∀ (orders : List Order) (row : DbOrder), ∀ o ∈ orders,
      (o.id = row.id → mapDbOrder row ∈ applyOrdersEvent orders (RealtimeEvent.UPDATE row)) ∧
      (o.id ≠ row.id → o ∈ applyOrdersEvent orders (RealtimeEvent.UPDATE row))) ∧
    (∀ (orders : List Order) (row : DbOrder),
      applyOrdersEvent orders (RealtimeEvent.DELETE row) = orders) := by
  refine ⟨?_, ?_, ?_, ?_, ?_, fun orders row => rfl⟩
  · intro menu row
    refine ⟨by simp [applyMenuEvent], fun m hm => ?_⟩
    simp only [applyMenuEvent, List.mem_append]
    exact Or.inl hm
  · intro menu row m hm
    refine ⟨fun hid => ?_, fun hid => ?_⟩
    · simp only [applyMenuEvent]
      exact List.mem_map.mpr ⟨m, hm, by simp [hid]⟩
    · simp only [applyMenuEvent]
      exact List.mem_map.mpr ⟨m, hm, by simp [hid]⟩
  · intro menu row
    refine ⟨fun m hm => ?_, fun m hm hid => ?_⟩
    · simp only [applyMenuEvent] at hm
      have h2 := (List.mem_filter.mp hm).2
      simpa using h2
    · simp only [applyMenuEvent]
      exact List.mem_filter.mpr ⟨hm, by simpa using hid⟩
  · intro orders row
    refine ⟨by simp [applyOrdersEvent], fun o ho => ?_⟩
    simp only [applyOrdersEvent, List.mem_cons]
    exact Or.inr ho
  · intro orders row o ho
    refine ⟨fun hid => ?_, fun hid => ?_⟩
    · simp only [applyOrdersEvent]
      exact List.mem_map.mpr ⟨o, ho, by simp [hid]⟩
    · simp only [applyOrdersEvent]
      exact List.mem_map.mpr ⟨o, ho, by simp [hid]⟩

/-- C5 witness: instantiating realtime_merge at a one-item menu whose id
matches an update payload, and at a one-order collection hit by a delete
payload. -/
theorem realtime_merge_witness :
    mapDbMenuItem wDbMenuRow ∈ applyMenuEvent [icedLatte] (RealtimeEvent.UPDATE wDbMenuRow) ∧
    applyOrdersEvent [wOrder] (RealtimeEvent.DELETE wDbOrderRow) = [wOrder] :=
  ⟨(realtime_merge.2.1 [icedLatte] wDbMenuRow icedLatte (by decide)).1 rfl,
   realtime_merge.2.2.2.2.2 [wOrder] wDbOrderRow⟩

/-- C4: Cancelled and PickedUp are absorbing with respect to
item-prepared toggling: for an order in either state, any sequence of
toggleOrderItemPrepared invocations (any order id and item id, any number
of times) leaves that order's status unchanged. -/
theorem cancelled_pickedUp_absorbing (orders : List Order) (oid : String) (o : Order)
    (toggles : List (String × String))
    (h : findOrder orders oid = some o)
    (hterm : o.status = OrderStatus.Cancelled ∨ o.status = OrderStatus.PickedUp) :
    ∃ o', findOrder (toggles.foldl (fun os t => toggleOrderItemPrepared os t.1 t.2) orders) oid
            = some o' ∧ o'.status = o.status := by
  induction toggles generalizing orders o with
  | nil => exact ⟨o, h, rfl⟩
  | cons t ts ih =>
    obtain ⟨o1, h1, hs1⟩ := toggle_step_terminal orders t.1 t.2 oid o h hterm
    obtain ⟨o2, h2, hs2⟩ := ih (toggleOrderItemPrepared orders t.1 t.2) o1 h1 (by rw [hs1]; exact hterm)
    exact ⟨o2, h2, hs2.trans hs1⟩

/-- C4 witness: three successive toggles on the cancelled order leave its
status Cancelled, by instantiating cancelled_pickedUp_absorbing. -/
theorem cancelled_pickedUp_absorbing_witness :
    ∃ o', findOrder
            (([("o2", "i1"), ("o2", "i2"), ("o2", "i1")] : List (String × String)).foldl
              (fun os t => toggleOrderItemPrepared os t.1 t.2) [wCancelled]) "o2"
            = some o' ∧ o'.status = wCancelled.status :=
  cancelled_pickedUp_absorbing [wCancelled] "o2" wCancelled
    [("o2", "i1"), ("o2", "i2"), ("o2", "i1")] (by decide) (Or.inl rfl)

/-- C3: when the current status is neither Cancelled nor PickedUp,
toggleOrderItemPrepared stores the toggled items and a status derived from
the resulting prepared counts: Pending when no item is prepared, Preparing
when strictly between zero and all, Completed when every item of a
non-empty order is prepared. -/
theorem toggle_derives_status (orders : List Order) (orderId itemId : String) (order : Order)
    (h : findOrder orders orderId = some order)
    (hc : order.status ≠ OrderStatus.Cancelled)
    (hp : order.status ≠ OrderStatus.PickedUp) :
    findOrder (toggleOrderItemPrepared orders orderId itemId) orderId =
      some { order with
             items := toggledItems order.items itemId,
             status := deriveStatus (preparedCount (toggledItems order.items itemId))
                                    (toggledItems order.items itemId).length } ∧
    (preparedCount (toggledItems order.items itemId) = 0 →
      deriveStatus (preparedCount (toggledItems order.items itemId))
                   (toggledItems order.items itemId).length = OrderStatus.Pending) ∧
    (0 < preparedCount (toggledItems order.items itemId) →
      preparedCount (toggledItems order.items itemId) < (toggledItems order.items itemId).length →
      deriveStatus (preparedCount (toggledItems order.items itemId))
                   (toggledItems order.items itemId).length = OrderStatus.Preparing) ∧
    (preparedCount (toggledItems order.items itemId) = (toggledItems order.items itemId).length →
      0 < (toggledItems order.items itemId).length →
      deriveStatus (preparedCount (toggledItems order.items itemId))
                   (toggledItems order.items itemId).length = OrderStatus.Completed) := by
  refine ⟨?_, ?_, ?_, ?_⟩
  · have hfull := toggle_found orders orderId itemId order h
    rwa [if_pos ⟨hc, hp⟩] at hfull
  · intro h0
    simp [deriveStatus, h0]
  · intro hpos hlt
    have hne0 : preparedCount (toggledItems order.items itemId) ≠ 0 :=
      Nat.pos_iff_ne_zero.mp hpos
    have hnen : preparedCount (toggledItems order.items itemId) ≠
        (toggledItems order.items itemId).length := Nat.ne_of_lt hlt
    simp [deriveStatus, hne0, hnen]
  · intro heq hpos
    have hne0 : preparedCount (toggledItems order.items itemId) ≠ 0 := by
      rw [heq]
      exact Nat.pos_iff_ne_zero.mp hpos
    simp [deriveStatus, hne0, heq]
    exact List.ne_nil_of_length_pos hpos

/-- C3 witness: toggling the unprepared item of the Preparing two-item
order, by instantiating toggle_derives_status. -/
theorem toggle_derives_status_witness :
    findOrder (toggleOrderItemPrepared [wPreparing] "o1" "i1") "o1" =
      some { wPreparing with
             items := toggledItems wPreparing.items "i1",
             status := deriveStatus (preparedCount (toggledItems wPreparing.items "i1"))
                                    (toggledItems wPreparing.items "i1").length } ∧
    (preparedCount (toggledItems wPreparing.items "i1") = 0 →
      deriveStatus (preparedCount (toggledItems wPreparing.items "i1"))
                   (toggledItems wPreparing.items "i1").length = OrderStatus.Pending) ∧
    (0 < preparedCount (toggledItems wPreparing.items "i1") →
      preparedCount (toggledItems wPreparing.items "i1") < (toggledItems wPreparing.items "i1").length →
      deriveStatus (preparedCount (toggledItems wPreparing.items "i1"))
                   (toggledItems wPreparing.items "i1").length = OrderStatus.Preparing) ∧
    (preparedCount (toggledItems wPreparing.items "i1") = (toggledItems wPreparing.items "i1").length →
      0 < (toggledItems wPreparing.items "i1").length →
      deriveStatus (preparedCount (toggledItems wPreparing.items "i1"))
                   (toggledItems wPreparing.items "i1").length = OrderStatus.Completed) :=
  toggle_derives_status [wPreparing] "o1" "i1" wPreparing (by decide) (by decide) (by decide)

/-- C8: an order with zero line items and a non-terminal status is set to
Pending by toggleOrderItemPrepared — the prepared count of an empty items
array is 0, so the zero branch fires first and the Completed branch is
unreachable; the embedding is total, so no division-by-zero failure can
occur. -/
theorem zero_items_stays_pending (orders : List Order) (orderId itemId : String) (order : Order)
    (h : findOrder orders orderId = some order)
    (hitems : order.items = [])
    (hc : order.status ≠ OrderStatus.Cancelled)
    (hp : order.status ≠ OrderStatus.PickedUp) :
    findOrder (toggleOrderItemPrepared orders orderId itemId) orderId =
      some { order with items := ([] : List CartItem), status := OrderStatus.Pending } ∧
    OrderStatus.Pending ≠ OrderStatus.Completed := by
  constructor
  · have hfull := toggle_found orders orderId itemId order h
    rw [if_pos ⟨hc, hp⟩, hitems] at hfull
    simpa [toggledItems, preparedCount, deriveStatus] using hfull
  · decide

/-- C8 witness: toggling any item id on the empty pending order, by
instantiating zero_items_stays_pending. -/
theorem zero_items_stays_pending_witness :
    findOrder (toggleOrderItemPrepared [wEmpty] "o3" "i9") "o3" =
      some { wEmpty with items := ([] : List CartItem), status := OrderStatus.Pending } ∧
    OrderStatus.Pending ≠ OrderStatus.Completed :=
  zero_items_stays_pending [wEmpty] "o3" "i9" wEmpty (by decide) rfl (by decide) (by decide)

/-- C10: on a Cancelled or PickedUp order, toggleOrderItemPrepared still
flips the matching line item's prepared flag and stores the updated items
array; the status (and every other field) is left unchanged. -/
theorem toggle_terminal_frame (orders : List Order) (orderId itemId : String) (order : Order)
    (h : findOrder orders orderId = some order)
    (hterm : order.status = OrderStatus.Cancelled ∨ order.status = OrderStatus.PickedUp) :
    findOrder (toggleOrderItemPrepared orders orderId itemId) orderId =
      some { order with items := toggledItems order.items itemId, status := order.status } ∧
    ∀ item ∈ order.items, item.id = itemId →
      { item with isPrepared := some (! truthy item.isPrepared) } ∈ toggledItems order.items itemId := by
  constructor
  · have hfull := toggle_found orders orderId itemId order h
    have hcond : ¬(order.status ≠ OrderStatus.Cancelled ∧ order.status ≠ OrderStatus.PickedUp) := by
      rcases hterm with ht | ht <;> simp [ht]
    rwa [if_neg hcond] at hfull
  · intro item hmem hid
    unfold toggledItems
    exact List.mem_map.mpr ⟨item, hmem, by simp [hid]⟩

/-- C10 witness: toggling the unprepared item of the cancelled order, by
instantiating toggle_terminal_frame. -/
theorem toggle_terminal_frame_witness :
    findOrder (toggleOrderItemPrepared [wCancelled] "o2" "i1") "o2" =
      some { wCancelled with items := toggledItems wCancelled.items "i1", status := wCancelled.status } ∧
    ∀ item ∈ wCancelled.items, item.id = "i1" →
      { item with isPrepared := some (! truthy item.isPrepared) } ∈ toggledItems wCancelled.items "i1" :=
  toggle_terminal_frame [wCancelled] "o2" "i1" wCancelled (by decide) (Or.inl rfl)
